import Mathlib

/-!
Shallow embedding of the preview/task core of the `Xuanwo/yazi` fork:
`src/core/manager/preview.rs`, `yazi-core/src/tasks/tasks.rs`,
`yazi-shared/src/fs/file.rs`, together with proofs about them.

Machine integers are modelled as `Nat`, with an explicit `% 2^w` wherever
the Rust code performs a truncating cast (`as u16`) or wrapping arithmetic
could occur; `saturating_sub` on unsigned integers coincides with `Nat`
subtraction.
-/

namespace Yazi

/-- `PreviewData` from `preview.rs`: `None | Folder | Text(String) | Image(Vec<u8>)`,
with `None` the `Default`. Bytes are modelled as `List Nat`. -/
inductive PreviewData where
  | none
  | folder
  | text (s : String)
  | image (bytes : List Nat)
deriving Repr, DecidableEq

instance : Inhabited PreviewData := ⟨PreviewData.none⟩

/-- The `MimeKind` enumeration matched in `Preview::go` (the `misc::MimeKind`
of the `src/` crate): `Dir, JSON, Text, Image, Video, Archive, Others`. -/
inductive MimeKind where
  | dir
  | json
  | text
  | image
  | video
  | archive
  | others
deriving Repr, DecidableEq

/-- Events reaching the event bus (`emit!`): a `Preview(path, data)` event or a
`Files(FilesOp)` event (`Read` on success, `IOErr` on failure), as emitted by the
producer spawned in `Preview::go` and by `Preview::folder`. -/
inductive Event where
  | preview (path : String) (data : PreviewData)
  | files (path : String) (readOk : Bool)
deriving Repr, DecidableEq

/-- Whether an event is a `Preview` event. -/
def Event.isPreview : Event → Bool
  | .preview _ _ => true
  | .files _ _ => false

/-- Outcomes of the suspending sub-computations the producer in `Preview::go`
may run, supplied as an oracle: `folder` always succeeds (it returns
`Ok(PreviewData::Folder)` after emitting a `Files` event whose success is
`folderReadOk`); the others may fail with an error string. -/
structure ProducerOracle where
  folderReadOk : Bool
  json : Except String String
  highlight : Except String String
  image : Except String (List Nat)
  video : Except String (List Nat)
  archive : Except String String
deriving Repr

/-- The `result` computed by the producer body in `Preview::go`:
the `match MimeKind::new(&mime) { ... }` expression. -/
def producerResult (kind : MimeKind) (mime : String) (o : ProducerOracle) :
    Except String PreviewData :=
  match kind with
  | .dir => Except.ok PreviewData.folder
  | .json => o.json.map PreviewData.text
  | .text => o.highlight.map PreviewData.text
  | .image => o.image.map PreviewData.image
  | .video => o.video.map PreviewData.image
  | .archive => o.archive.map PreviewData.text
  | .others => Except.error ("Unsupported mimetype: " ++ mime)

/-- `result.unwrap_or_default()`: the default of `PreviewData` is `None`. -/
def exceptUnwrapOrDefault (r : Except String PreviewData) : PreviewData :=
  match r with
  | .ok d => d
  | .error _ => PreviewData.none

/-- The full event trace of one producer run spawned by `Preview::go`:
`Preview::folder` first emits a `Files` event (only in the `Dir` arm), and the
producer ends with `emit!(Preview(path, result.unwrap_or_default()))`. -/
def producerEvents (kind : MimeKind) (path mime : String) (o : ProducerOracle) :
    List Event :=
  (match kind with
   | .dir => [Event.files path o.folderReadOk]
   | _ => []) ++
  [Event.preview path (exceptUnwrapOrDefault (producerResult kind mime o))]

/-- The `Preview` struct state: `path: PathBuf` (default = empty), `data:
PreviewData` (default = `None`), `handle: Option<JoinHandle<()>>` (a handle is
modelled as a `Nat` identifier). -/
structure PreviewState where
  path : String
  data : PreviewData
  handle : Option Nat
deriving Repr, DecidableEq

/-- `Preview::new()`: all fields default. -/
def PreviewState.new : PreviewState :=
  { path := "", data := PreviewData.none, handle := Option.none }

/-- Observable actions of `Preview::go` on its handle slot: aborting the old
producer handle and recording the freshly spawned one. -/
inductive GoAction where
  | abort (h : Nat)
  | record (h : Nat)
deriving Repr, DecidableEq

/-- `Preview::go(&mut self, path, mime)`: takes and aborts the stored handle if
present, then spawns the producer and stores its handle. The spawned handle is
supplied as `newH`; the returned list is the ordered action trace on the handle
slot. The `path` and `mime` arguments are captured by the spawned closure only;
`go` itself reads and writes nothing but `self.handle`. -/
def PreviewState.go (st : PreviewState) (path mime : String) (newH : Nat) :
    PreviewState × List GoAction :=
  match st.handle with
  | some h =>
    ({ st with handle := some newH }, [GoAction.abort h, GoAction.record newH])
  | Option.none =>
    ({ st with handle := some newH }, [GoAction.record newH])

/-- `Preview::reset(&mut self) -> bool`: if `path` is already the default,
return `false`; otherwise clear `path` and `data` to their defaults and return
`true`. The handle slot is untouched. -/
def PreviewState.reset (st : PreviewState) : PreviewState × Bool :=
  if st.path = "" then (st, false)
  else ({ st with path := "", data := PreviewData.none }, true)

/-- `Preview::size()`: `col = (ws_col as u32 * PREVIEW_RATIO / ALL_RATIO) as u16`,
then `(col.saturating_sub(PREVIEW_BORDER), ws_row.saturating_sub(PREVIEW_PADDING))`.
The `u32` arithmetic and the `as u16` cast are modelled with explicit moduli;
`saturating_sub` on `Nat` is plain subtraction. The ratio constants live in the
(absent) `core/manager` module root and are passed as parameters. -/
def previewSize (wsCol wsRow ratio allRatio border padding : Nat) : Nat × Nat :=
  let col := ((wsCol * ratio) % 4294967296 / allRatio) % 65536
  (col - border, wsRow - padding)

/-- Modelled from the spec: the viewport-geometry formula of §4.1, "Column
budget = `⌊term_cols · PREVIEW_RATIO / ALL_RATIO⌋ − PREVIEW_BORDER`. Row budget
= `term_rows − PREVIEW_PADDING`. All subtractions saturate at zero." Stated for
comparison with `previewSize`, which is translated from the source. -/
def specViewportBudget (wsCol wsRow ratio allRatio border padding : Nat) :
    Nat × Nat :=
  (wsCol * ratio / allRatio - border, wsRow - padding)

/-- Modelled from the spec: `yazi_shared::fs::Url` (its source is not under
`src/`) — "An addressable location: either a local filesystem path or a remote
`(scheme, path)` tuple. Supports `join(name)`, `parent`, `file_name`, …". The
path is a list of components; `fileName` is the last component (absent for a
root), and `join` appends one component. -/
structure Url where
  scheme : Option String
  comps : List String
deriving Repr, DecidableEq

/-- `Url::file_name()`: the final path component, if any. -/
def Url.fileName (u : Url) : Option String :=
  u.comps.getLast?

/-- `Url::join(name)`: append one component. -/
def Url.join (u : Url) (name : String) : Url :=
  { u with comps := u.comps ++ [name] }

/-- A task enqueued on the scheduler by `Tasks::file_copy` / `file_cut` /
`file_link`: `scheduler.file_copy(u.clone(), to, force)` and friends. The
`relative` flag is carried only by `file_link` and is `false` otherwise. -/
structure FileTask where
  src : Url
  dst : Url
  force : Bool
  relative : Bool
deriving Repr, DecidableEq

/-- The body of the loops in `Tasks::file_copy` / `file_cut` / `file_link`:
for each source `u`, `to = dest.join(u.file_name().unwrap())`; if `force` and
`u == to`, skip with a debug trace, else enqueue. `u.file_name().unwrap()`
panics when the source has no file name, modelled as `Option.none`. The source
`HashSet` is modelled as a list of its (distinct) elements. -/
def fileTaskList (src : List Url) (dest : Url) (relative force : Bool) :
    Option (List FileTask) :=
  match src with
  | [] => some []
  | u :: rest =>
    match u.fileName with
    | Option.none => Option.none
    | some name =>
      match fileTaskList rest dest relative force with
      | Option.none => Option.none
      | some tasks =>
        let dst := dest.join name
        if force && u == dst then some tasks
        else some ({ src := u, dst := dst, force := force, relative := relative }
                    :: tasks)

/-- `Tasks::file_copy(&self, src, dest, force)`: enqueues the copy tasks. -/
def tasksFileCopy (src : List Url) (dest : Url) (force : Bool) :
    Option (List FileTask) :=
  fileTaskList src dest false force

/-- `Tasks::file_cut(&self, src, dest, force)`: enqueues the cut tasks. -/
def tasksFileCut (src : List Url) (dest : Url) (force : Bool) :
    Option (List FileTask) :=
  fileTaskList src dest false force

/-- `Tasks::file_link(&self, src, dest, relative, force)`: enqueues the link
tasks, carrying the `relative` flag. -/
def tasksFileLink (src : List Url) (dest : Url) (relative force : Bool) :
    Option (List FileTask) :=
  fileTaskList src dest relative force

/-- Does the skip condition of the copy/cut/link loops hold for `u` under
`force = true`: `u == dest.join(u.file_name().unwrap())`? (`false` when `u` has
no file name — that case panics before the comparison.) -/
def sameAsDest (dest u : Url) : Bool :=
  match u.fileName with
  | some name => u == dest.join name
  | Option.none => false

/-- `Tasks::limit()`: `(Term::size().rows * TASKS_PERCENT / 100)
.saturating_sub(TASKS_PADDING) as usize`. The `u16` multiplication is modelled
with an explicit modulus; the geometry constants live in the (absent) tasks
module root and are passed as parameters. -/
def tasksLimit (rows percent padding : Nat) : Nat :=
  (rows * percent) % 65536 / 100 - padding

/-- `Tasks::paginate()`: `running.values().take(Self::limit()).map(Into::into)
.collect()`. The running table is modelled as the list of its task records in
insertion order, and `Into::into` (task → summary) as the function `f`. -/
def tasksPaginate {α β : Type} (f : α → β) (running : List α)
    (rows percent padding : Nat) : List β :=
  (running.take (tasksLimit rows percent padding)).map f

/-- The `ChaKind` bitflags of `yazi_shared::fs`: `DIR`, `HIDDEN`, `LINK`,
`ORPHAN` (each flag a field). `default`/`empty` is all-false. -/
structure ChaKind where
  dir : Bool
  hidden : Bool
  link : Bool
  orphan : Bool
deriving Repr, DecidableEq

/-- `ChaKind::empty()` / `ChaKind::default()`. -/
def ChaKind.empty : ChaKind :=
  { dir := false, hidden := false, link := false, orphan := false }

/-- The `Cha` metadata snapshot (unix fields included). Instants are
microseconds since the unix epoch as `u64` (modelled by `Nat`); `permissions`,
`uid`, `gid` are unsigned integers. -/
structure Cha where
  kind : ChaKind
  len : Nat
  accessed : Option Nat
  created : Option Nat
  modified : Option Nat
  permissions : Nat
  uid : Nat
  gid : Nat
deriving Repr, DecidableEq

/-- What `File::from_meta` consumes of an `std::fs::Metadata`: whether the
entry is a symlink, plus the remaining snapshot mapped into `Cha` by
`Cha::from(meta)` (kept abstract as `cha`, with `with_kind` overriding the
flags). -/
structure Metadata where
  isSymlink : Bool
  cha : Cha
deriving Repr, DecidableEq

/-- The `File` struct: a URL, its `Cha`, an optional link target. The
interior-mutable icon cache slot carries no contract and is omitted. -/
structure File where
  url : Url
  cha : Cha
  linkTo : Option Url
deriving Repr, DecidableEq

/-- `File::from_meta(url, meta)`. The suspending filesystem calls are supplied
as oracles: `followed` is the result of `fs::metadata(&url)` (the followed
metadata; `Option.none` = error, in which case `unwrap_or(meta)` keeps the link
metadata) and `readLink` the result of `fs::read_link(&url)`; both are consulted
only when `meta.is_symlink()`. `isHidden` is `url.is_hidden()` (unix). -/
def fileFromMeta (url : Url) (meta : Metadata) (followed : Option Metadata)
    (readLink : Option Url) (isHidden : Bool) : File :=
  let isLink := meta.isSymlink
  let meta1 := if isLink then followed.getD meta else meta
  let linkTo := if isLink then readLink else Option.none
  let ck0 := ChaKind.empty
  let ck1 :=
    if isLink && meta1.isSymlink then { ck0 with orphan := true }
    else if isLink then { ck0 with link := true }
    else ck0
  let ck2 := if isHidden then { ck1 with hidden := true } else ck1
  { url := url, cha := { meta1.cha with kind := ck2 }, linkTo := linkTo }

/-- What `File::from_remote` consumes of the remote adapter's stat
(`op.stat(...)`): `is_dir()`, `content_length()`, and `last_modified()` whose
`timestamp_micros()` is an `i64`. -/
structure RemoteMeta where
  isDir : Bool
  contentLength : Nat
  lastModifiedMicros : Option Int
deriving Repr, DecidableEq

/-- `v.timestamp_micros() as u64`: the wrapping `i64 → u64` cast. -/
def i64AsU64 (v : Int) : Nat :=
  (v % 18446744073709551616).toNat

/-- `File::from_remote(url)`, given a successful stat `meta` from the scheme
adapter and the current process uid/gid (`libc::getuid()` / `getgid()`). The
`Cha` is built exactly as in the source; note the Rust literal `0774` is the
decimal number 774 (Rust octal is spelled `0o774`). `UNIX_EPOCH +
Duration::from_micros(v.timestamp_micros() as u64)` makes `modified` the cast
microsecond count. -/
def fileFromRemote (url : Url) (meta : RemoteMeta) (curUid curGid : Nat) :
    File :=
  let kind := if meta.isDir then { ChaKind.empty with dir := true }
              else ChaKind.empty
  let cha : Cha :=
    { kind := kind
      len := meta.contentLength
      accessed := Option.none
      created := Option.none
      modified := meta.lastModifiedMicros.map i64AsU64
      permissions := 774
      uid := curUid
      gid := curGid }
  { url := url, cha := cha, linkTo := Option.none }

/-! ## Theorems -/

/-- C1: every producer run spawned by `Preview::go` emits exactly one
`Preview(path, data)` event — namely `Preview(path, result.unwrap_or_default())`
— and `data` is `PreviewData::None` whenever the computation fails, in
particular for the `Others` MIME kind; the event carries only a `PreviewData`,
never an error value. -/
theorem preview_producer_single_event (kind : MimeKind) (path mime : String)
    (o : ProducerOracle) :
    (producerEvents kind path mime o).filter Event.isPreview
      = [Event.preview path (exceptUnwrapOrDefault (producerResult kind mime o))] ∧
    (∀ e, producerResult kind mime o = Except.error e →
      exceptUnwrapOrDefault (producerResult kind mime o) = PreviewData.none) ∧
    (kind = MimeKind.others →
      exceptUnwrapOrDefault (producerResult kind mime o) = PreviewData.none) := by
  refine ⟨?_, ?_, ?_⟩
  · cases kind <;> simp [producerEvents, Event.isPreview]
  · intro e he
    simp [exceptUnwrapOrDefault, he]
  · intro hk
    subst hk
    simp [producerResult, exceptUnwrapOrDefault]

/-- Witness for C1 at a concrete input: the `Others` kind (unsupported
mimetype) yields `PreviewData::None`. -/
theorem preview_producer_single_event_witness :
    exceptUnwrapOrDefault (producerResult MimeKind.others "application/x-random"
      { folderReadOk := true, json := Except.ok "", highlight := Except.ok "",
        image := Except.ok [], video := Except.ok [], archive := Except.ok "" })
      = PreviewData.none :=
  (preview_producer_single_event MimeKind.others "/x.bin" "application/x-random"
    { folderReadOk := true, json := Except.ok "", highlight := Except.ok "",
      image := Except.ok [], video := Except.ok [], archive := Except.ok "" }).2.2
    rfl

/-- C2: `go` holds at most one in-flight handle: it ends with exactly the new
handle recorded, and when a previous handle was stored the action trace is
`abort old` strictly before `record new`. -/
theorem preview_go_cancel_before_record (st : PreviewState) (p m : String)
    (h : Nat) :
    ((st.go p m h).1.handle = some h) ∧
    (st.handle = Option.none → (st.go p m h).2 = [GoAction.record h]) ∧
    (∀ old, st.handle = some old →
      (st.go p m h).2 = [GoAction.abort old, GoAction.record h]) := by
  cases hh : st.handle <;>
    simp [PreviewState.go, hh]

/-- Witness for C2 at a concrete input: replacing handle `5` by handle `7`
aborts `5` first, then records `7`. -/
theorem preview_go_cancel_before_record_witness :
    ((PreviewState.go
        { path := "/a", data := PreviewData.none, handle := some 5 }
        "/b" "text/plain" 7).2
      = [GoAction.abort 5, GoAction.record 7]) :=
  (preview_go_cancel_before_record
    { path := "/a", data := PreviewData.none, handle := some 5 }
    "/b" "text/plain" 7).2.2 5 rfl

/-- C3 counterexample: on a fresh engine, a successful `go` followed by
`reset()` returns `false`, not `true` — `go` never writes the `path` field, so
it is still the default. -/
theorem preview_reset_after_go_cex :
    ((PreviewState.new.go "/a.txt" "text/plain" 0).1.reset).2 = false := by
  rfl

/-- C3 amended: `reset()` returns `true` iff the stored `path` is non-default
(and then clears `path` and `data`, so a second consecutive `reset()` returns
`false`); on a fresh engine it returns `false`; and since `go` leaves `path`
unchanged, `reset` after `go` returns exactly what it would have returned
before the `go`. -/
theorem preview_reset_reports_change (st : PreviewState) (p m : String)
    (h : Nat) :
    (PreviewState.new.reset.2 = false) ∧
    ((st.reset.2 = true) ↔ st.path ≠ "") ∧
    ((st.reset.1).reset.2 = false) ∧
    (st.reset.2 = false → st.reset.1 = st) ∧
    ((st.go p m h).1.reset.2 = st.reset.2) := by
  refine ⟨rfl, ?_, ?_, ?_, ?_⟩
  · by_cases hp : st.path = "" <;> simp [PreviewState.reset, hp]
  · by_cases hp : st.path = "" <;> simp [PreviewState.reset, hp]
  · by_cases hp : st.path = "" <;> simp [PreviewState.reset, hp]
  · have hpath : (st.go p m h).1.path = st.path := by
      cases hh : st.handle <;> simp [PreviewState.go, hh]
    by_cases hp : st.path = "" <;> simp [PreviewState.reset, hpath, hp]

/-- Witness for C3 (amended) at a concrete input: with a non-default path the
first `reset` returns `true` and the second returns `false`. -/
theorem preview_reset_reports_change_witness :
    ((PreviewState.reset
        { path := "/a", data := PreviewData.folder, handle := Option.none }).2
       = true) ∧
    ((PreviewState.reset (PreviewState.reset
        { path := "/a", data := PreviewData.folder,
          handle := Option.none }).1).2 = false) :=
  ⟨(preview_reset_reports_change
      { path := "/a", data := PreviewData.folder, handle := Option.none }
      "/b" "text/plain" 0).2.1.mpr (by decide),
   (preview_reset_reports_change
      { path := "/a", data := PreviewData.folder, handle := Option.none }
      "/b" "text/plain" 0).2.2.1⟩

/-- C10: `go` is a frame on `path` and `data` — it only replaces the handle
slot; the stored path and data are not updated to the new target. -/
theorem preview_go_frame (st : PreviewState) (p m : String) (h : Nat) :
    ((st.go p m h).1.path = st.path) ∧ ((st.go p m h).1.data = st.data) := by
  cases hh : st.handle <;> simp [PreviewState.go, hh]

/-- The task `Tasks::file_copy` (resp. cut, link) enqueues for a kept source
`u`: destination `dest.join(u.file_name().unwrap())`. -/
def mkTask (dest : Url) (relative force : Bool) (u : Url) : FileTask :=
  { src := u, dst := dest.join (u.fileName.getD ""), force := force,
    relative := relative }

/-- When every source has a file name, the copy/cut/link loop enqueues exactly
the sources not skipped by the `force && u == to` test, in order. -/
theorem fileTaskList_eq_of_names (S : List Url) (dest : Url)
    (relative : Bool) (h : ∀ u ∈ S, (u.fileName).isSome) :
    fileTaskList S dest relative true
      = some ((S.filter (fun u => ! sameAsDest dest u)).map
                (mkTask dest relative true)) := by
  induction S with
  | nil => rfl
  | cons u rest ih =>
    have hu : (u.fileName).isSome := h u (List.mem_cons_self u rest)
    obtain ⟨name, hname⟩ := Option.isSome_iff_exists.mp hu
    have hrest := ih (fun v hv => h v (List.mem_cons_of_mem u hv))
    by_cases hskip : u == dest.join name
    · have hsame : sameAsDest dest u = true := by
        simp [sameAsDest, hname, hskip]
      simp [fileTaskList, hname, hrest, hskip, hsame]
    · have hsame : sameAsDest dest u = false := by
        simp only [sameAsDest, hname]
        exact Bool.of_not_eq_true hskip
      simp [fileTaskList, hname, hrest, hskip, hsame, mkTask]

/-- C5: `file_copy(S, D, force = true)` enqueues one task per source except
those `u` equal to `D.join(u.file_name())`, which are skipped; in particular a
singleton source equal to its own destination enqueues zero tasks, and when no
source is skipped exactly `|S|` tasks are enqueued. (Sources are assumed to
have file names — a nameless source panics instead, see the unwrap theorem.) -/
theorem tasks_file_copy_force_counts (S : List Url) (D : Url)
    (h : ∀ u ∈ S, (u.fileName).isSome) :
    ∃ ts, tasksFileCopy S D true = some ts ∧
      ts = (S.filter (fun u => ! sameAsDest D u)).map (mkTask D false true) ∧
      ts.length = (S.filter (fun u => ! sameAsDest D u)).length ∧
      ((∀ u ∈ S, sameAsDest D u = false) → ts.length = S.length) ∧
      (∀ u, S = [u] → sameAsDest D u = true → ts = []) := by
  refine ⟨(S.filter (fun u => ! sameAsDest D u)).map (mkTask D false true),
    fileTaskList_eq_of_names S D false h, rfl, List.length_map _ _, ?_, ?_⟩
  · intro hall
    have : S.filter (fun u => ! sameAsDest D u) = S := by
      apply List.filter_eq_self.mpr
      intro a ha
      simp [hall a ha]
    rw [List.length_map, this]
  · intro u hS hsame
    subst hS
    simp [List.filter, hsame]

/-- Witness for C5 at a concrete input (spec seed case 4): copying
`/tmp/a` into `/tmp` with `force` enqueues zero tasks. -/
theorem tasks_file_copy_force_counts_witness :
    tasksFileCopy [{ scheme := Option.none, comps := ["tmp", "a"] }]
      { scheme := Option.none, comps := ["tmp"] } true = some [] := by
  obtain ⟨ts, hts, -, -, -, hsing⟩ :=
    tasks_file_copy_force_counts
      [{ scheme := Option.none, comps := ["tmp", "a"] }]
      { scheme := Option.none, comps := ["tmp"] } (by decide)
  rw [hts, hsing { scheme := Option.none, comps := ["tmp", "a"] } rfl
    (by decide)]

/-- `fileTaskList` panics (returns `Option.none`) exactly when some source URL
has no file name. -/
theorem fileTaskList_none_iff (S : List Url) (dest : Url)
    (relative force : Bool) :
    fileTaskList S dest relative force = Option.none
      ↔ ∃ u ∈ S, u.fileName = Option.none := by
  induction S with
  | nil => simp [fileTaskList]
  | cons u rest ih =>
    cases hname : u.fileName with
    | none => simp [fileTaskList, hname]
    | some name =>
      cases hrest : fileTaskList rest dest relative force with
      | none =>
        obtain ⟨v, hv, hvn⟩ := ih.mp hrest
        have hl : fileTaskList (u :: rest) dest relative force = Option.none := by
          simp [fileTaskList, hname, hrest]
        rw [hl]
        simp only [List.mem_cons]
        exact iff_of_true trivial ⟨v, Or.inr hv, hvn⟩
      | some tasks =>
        have hnotrest := ih.not.mp (by simp [hrest])
        simp only [fileTaskList, hname, hrest, List.mem_cons]
        constructor
        · intro hcontr
          by_cases hskip : force && u == dest.join name <;>
            simp [hskip] at hcontr
        · rintro ⟨v, hv, hvnone⟩
          rcases hv with rfl | hv
          · exact absurd hvnone (by simp [hname])
          · exact absurd ⟨v, hv, hvnone⟩ hnotrest

/-- C9: `file_copy`, `file_cut` and `file_link` call `file_name().unwrap()` on
every source, so each of them panics iff some source URL has no file name;
when every source has one, the unwrap (panic) branch is unreachable and the
call returns. -/
theorem tasks_file_ops_unwrap_on_nameless (S : List Url) (D : Url)
    (relative force : Bool) :
    (tasksFileCopy S D force = Option.none
        ↔ ∃ u ∈ S, u.fileName = Option.none) ∧
    (tasksFileCut S D force = Option.none
        ↔ ∃ u ∈ S, u.fileName = Option.none) ∧
    (tasksFileLink S D relative force = Option.none
        ↔ ∃ u ∈ S, u.fileName = Option.none) :=
  ⟨fileTaskList_none_iff S D false force,
   fileTaskList_none_iff S D false force,
   fileTaskList_none_iff S D relative force⟩

/-- Witness for C9 at a concrete input: copying from a filesystem root (no
file name) panics, while a named source does not. -/
theorem tasks_file_ops_unwrap_on_nameless_witness :
    tasksFileCopy [{ scheme := Option.none, comps := [] }]
      { scheme := Option.none, comps := ["tmp"] } false = Option.none ∧
    tasksFileCopy [{ scheme := Option.none, comps := ["a"] }]
      { scheme := Option.none, comps := ["tmp"] } false ≠ Option.none :=
  ⟨(tasks_file_ops_unwrap_on_nameless
      [{ scheme := Option.none, comps := [] }]
      { scheme := Option.none, comps := ["tmp"] } false false).1.mpr
      ⟨{ scheme := Option.none, comps := [] }, List.mem_singleton.mpr rfl, rfl⟩,
   fun hc =>
    absurd ((tasks_file_ops_unwrap_on_nameless
      [{ scheme := Option.none, comps := ["a"] }]
      { scheme := Option.none, comps := ["tmp"] } false false).1.mp hc)
      (by decide)⟩

/-- C6: `paginate()` returns the first `min(limit(), running.len())` task
summaries of the running table — a prefix, hence in insertion order — with
`limit() = rows * TASKS_PERCENT / 100 − TASKS_PADDING` (saturating), provided
the `u16` product does not wrap. -/
theorem tasks_paginate_length (f : Nat → Nat) (running : List Nat)
    (rows percent padding : Nat) (h : rows * percent < 65536) :
    tasksLimit rows percent padding = rows * percent / 100 - padding ∧
    (tasksPaginate f running rows percent padding).length
      = min (tasksLimit rows percent padding) running.length ∧
    ∃ rest, tasksPaginate f running rows percent padding ++ rest
      = running.map f := by
  refine ⟨?_, ?_, ?_⟩
  · unfold tasksLimit
    rw [Nat.mod_eq_of_lt h]
  · unfold tasksPaginate
    rw [List.length_map, List.length_take]
  · exact ⟨(running.drop (tasksLimit rows percent padding)).map f,
      by rw [tasksPaginate, ← List.map_append, List.take_append_drop]⟩

/-- Witness for C6 at a concrete input: 3 running tasks, 10 rows, 80 percent,
padding 2 — limit is 6 and the page holds all 3 summaries. -/
theorem tasks_paginate_length_witness :
    tasksLimit 10 80 2 = 10 * 80 / 100 - 2 ∧
    (tasksPaginate (fun t => t + 1) [3, 1, 2] 10 80 2).length
      = min (tasksLimit 10 80 2) 3 :=
  ⟨(tasks_paginate_length (fun t => t + 1) [3, 1, 2] 10 80 2 (by decide)).1,
   (tasks_paginate_length (fun t => t + 1) [3, 1, 2] 10 80 2 (by decide)).2.1⟩

/-- C7: within `u16`/`u32` range (terminal columns and the ratio constant are
`u16`-sized and `PREVIEW_RATIO ≤ ALL_RATIO`), `Preview::size` computes exactly
the spec formula: column budget `⌊cols · R / A⌋ − BORDER` and row budget
`rows − PADDING`, both saturating at zero; in particular the column budget is
`0` whenever `⌊cols · R / A⌋ < BORDER`. -/
theorem preview_size_matches_spec (wsCol wsRow ratio allRatio border padding : Nat)
    (hc : wsCol < 65536) (hr : ratio < 65536) (hra : ratio ≤ allRatio) :
    previewSize wsCol wsRow ratio allRatio border padding
      = specViewportBudget wsCol wsRow ratio allRatio border padding ∧
    (wsCol * ratio / allRatio < border →
      (previewSize wsCol wsRow ratio allRatio border padding).1 = 0) := by
  have hov : wsCol * ratio < 4294967296 := by
    have h1 : wsCol * ratio < 65536 * 65536 :=
      Nat.mul_lt_mul_of_lt_of_le hc (le_of_lt hr) (by decide)
    exact lt_of_lt_of_eq h1 (by norm_num)
  have hq : wsCol * ratio / allRatio ≤ wsCol :=
    Nat.div_le_of_le_mul
      (le_trans (Nat.mul_le_mul_left wsCol hra) (le_of_eq (Nat.mul_comm wsCol allRatio)))
  have hqlt : wsCol * ratio / allRatio < 65536 := lt_of_le_of_lt hq hc
  have hsz : previewSize wsCol wsRow ratio allRatio border padding
      = (wsCol * ratio / allRatio - border, wsRow - padding) := by
    unfold previewSize
    rw [Nat.mod_eq_of_lt hov, Nat.mod_eq_of_lt hqlt]
  refine ⟨hsz, ?_⟩
  intro hlt
  rw [hsz]
  exact Nat.sub_eq_zero_of_le (le_of_lt hlt)

/-- Witness for C7 at a concrete input: 100 columns, ratio 3 of 8, border 4 —
the column budget is `⌊100·3/8⌋ − 4 = 33` — and with border 40 it is 0. -/
theorem preview_size_matches_spec_witness :
    previewSize 100 30 3 8 4 3 = specViewportBudget 100 30 3 8 4 3 ∧
    (previewSize 100 30 3 8 40 3).1 = 0 :=
  ⟨(preview_size_matches_spec 100 30 3 8 4 3 (by decide) (by decide)
      (by decide)).1,
   (preview_size_matches_spec 100 30 3 8 40 3 (by decide) (by decide)
      (by decide)).2 (by decide)⟩

/-- C8: for a local file built by `File::from_meta` from link metadata that is
a symlink, the followed metadata (kept as the link metadata when the followed
lookup fails) decides the flag: still-a-symlink marks `ORPHAN`, otherwise
`LINK`; a non-symlink receives neither flag; and `link_to` is present iff the
URL is a symlink whose `read_link` resolves. -/
theorem file_from_meta_link_flags (url : Url) (meta : Metadata)
    (followed : Option Metadata) (readLink : Option Url) (hidden : Bool) :
    (meta.isSymlink = true →
      ((fileFromMeta url meta followed readLink hidden).cha.kind.orphan
          = (followed.getD meta).isSymlink ∧
       (fileFromMeta url meta followed readLink hidden).cha.kind.link
          = !(followed.getD meta).isSymlink)) ∧
    (meta.isSymlink = false →
      ((fileFromMeta url meta followed readLink hidden).cha.kind.orphan = false ∧
       (fileFromMeta url meta followed readLink hidden).cha.kind.link = false)) ∧
    ((fileFromMeta url meta followed readLink hidden).linkTo
        = if meta.isSymlink then readLink else Option.none) ∧
    ((fileFromMeta url meta followed readLink hidden).linkTo.isSome
        = (meta.isSymlink && readLink.isSome)) := by
  cases hs : meta.isSymlink <;>
    cases hf : (followed.getD meta).isSymlink <;>
      cases hidden <;>
        simp [fileFromMeta, ChaKind.empty, hs, hf]

/-- Witness for C8 at a concrete input: a symlink whose followed metadata is a
regular file and whose target resolves is marked `LINK`, not `ORPHAN`. -/
theorem file_from_meta_link_flags_witness :
    ((fileFromMeta { scheme := Option.none, comps := ["a"] }
        { isSymlink := true,
          cha := { kind := ChaKind.empty, len := 0, accessed := Option.none,
                   created := Option.none, modified := Option.none,
                   permissions := 0, uid := 0, gid := 0 } }
        (some { isSymlink := false,
                cha := { kind := ChaKind.empty, len := 7,
                         accessed := Option.none, created := Option.none,
                         modified := Option.none, permissions := 0,
                         uid := 0, gid := 0 } })
        (some { scheme := Option.none, comps := ["b"] })
        false).cha.kind.link = true) :=
  ((file_from_meta_link_flags { scheme := Option.none, comps := ["a"] }
      { isSymlink := true,
        cha := { kind := ChaKind.empty, len := 0, accessed := Option.none,
                 created := Option.none, modified := Option.none,
                 permissions := 0, uid := 0, gid := 0 } }
      (some { isSymlink := false,
              cha := { kind := ChaKind.empty, len := 7,
                       accessed := Option.none, created := Option.none,
                       modified := Option.none, permissions := 0,
                       uid := 0, gid := 0 } })
      (some { scheme := Option.none, comps := ["b"] })
      false).1 rfl).2

/-- C4 (code bug): `File::from_remote` builds a `Cha` with `accessed` and
`created` absent, `modified` the remote last-modified microsecond count, and
the current uid/gid — but its `permissions` field is the Rust literal `0774`,
which is the decimal number 774 (= `0o1406`), not the octal `0o774` (= 508)
that the adjacent comment and the spec intend. Evaluated at a concrete remote
stat. -/
theorem file_from_remote_decimal_permissions :
    (fileFromRemote { scheme := some "s3", comps := ["bucket", "obj"] }
        { isDir := false, contentLength := 42,
          lastModifiedMicros := some 1700000000000000 } 1000 100).cha
      = { kind := ChaKind.empty, len := 42, accessed := Option.none,
          created := Option.none, modified := some 1700000000000000,
          permissions := 774, uid := 1000, gid := 100 } ∧
    (774 : Nat) ≠ 0o774 := by
  constructor
  · simp [fileFromRemote, ChaKind.empty, i64AsU64]
  · decide

end Yazi
